import Mathlib

/-!
Shallow embedding of the note-splitting and indexing pipeline of
wcqtlib/data/extract.py, with theorems checking the specification's claims.

Conventions:
* Durations (seconds) are rationals: the pipeline only ever compares them.
* File paths are strings; files inside one output directory are represented
  by their basenames (what os.listdir returns), and a full path is
  joinPath dir base.
* External collaborators (the claudio audio/sox primitives, the filesystem,
  and the wcqtlib.data.parse / wcqtlib.common.utils helpers that are not part
  of the extraction module) are modelled as oracle parameters bundled in
  environment structures; each call site reads the oracle exactly where the
  source calls the collaborator.
-/

namespace Wcqt

abbrev Dur := ℚ

/-- Modelled from the spec: wcqtlib.common.utils.filebase (the module is not in
src/). Per the glossary, the stem is "the shared filename prefix used to
associate a source recording with its derived sibling files": the basename
with its extension removed, i.e. everything before the last dot (the name is
unchanged when it has no dot). -/
def filebase (name : String) : String :=
  let cs := name.toList
  if cs.contains '.' then
    String.mk ((cs.reverse.dropWhile (fun c => c ≠ '.')).drop 1).reverse
  else name

/-- Basename of a path: the part after the last slash (os.path.basename). -/
def basenameOf (path : String) : String :=
  String.mk (path.toList.reverse.takeWhile (fun c => c ≠ '/')).reverse

/-- os.path.join for a directory and a basename. -/
def joinPath (dir file : String) : String := dir ++ "/" ++ file

/-- Python substring containment: sub in s. -/
def strContains (sub s : String) : Bool := decide (sub.toList <:+: s.toList)

/-- Oracle bundle for one split_examples call: the behaviour of the external
claudio collaborators on this input.
* soxOk is the boolean returned by claudio.sox.split_along_silence.
* soxOutputs are the sibling basenames the segmentation writes into the
  output directory before returning (written even when it reports failure).
* dur gives the result of opening a file in the output directory with
  claudio.fileio.AudioFile: some duration, or none when opening fails
  (the AssertionError caught at extract.py line 159). -/
structure SplitEnv where
  soxOk : Bool
  soxOutputs : List String
  dur : String → Option Dur

/-- Result of one split_examples call.
* ready: basenames returned (the source returns joinPath dir b for each).
* dirFiles: contents of the output directory after the call.
* removed: basenames deleted from disk during the call (cleanup pass plus
  validation pass).
* soxCalls: how many times the segmentation primitive was invoked. -/
structure SplitOut where
  ready : List String
  dirFiles : List String
  removed : List String
  soxCalls : Nat
deriving DecidableEq, Repr

/-- extract.py lines 78-166. dir0 is the listing of output_dir at entry.
A directory entry x is treated as derived from the input iff the input's
filebase occurs in x as a substring (Python: filebase in x) and x differs
from the input's basename. -/
def split_examples (env : SplitEnv) (inputAudioPath : String)
    (dir0 : List String) (minVoicingDuration : Dur)
    (skipProcessing cleanState : Bool) : SplitOut :=
  let originalName := basenameOf inputAudioPath
  let fb := filebase originalName
  let isDerived : String → Bool := fun x =>
    strContains fb x && x ≠ originalName
  let oldFiles := dir0.filter isDerived
  let cleaned := cleanState && !skipProcessing
  let dir1 := if cleaned then dir0.filter (fun x => !(isDerived x)) else dir0
  let removed0 := if cleaned then oldFiles else []
  -- the or short-circuits: sox runs only when skipProcessing is false,
  -- writes its outputs into the directory, and returns soxOk
  let dir2 := if skipProcessing then dir1 else dir1 ++ env.soxOutputs
  if skipProcessing || env.soxOk then
    let processFiles := dir2.filter isDerived
    -- validation: keep a candidate iff it opens and its duration is at
    -- least min_voicing_duration; otherwise delete it from disk
    let keep : String → Bool := fun x =>
      match env.dur x with
      | some d => decide (minVoicingDuration ≤ d)
      | none => false
    { ready := processFiles.filter keep
      dirFiles := dir2.filter (fun x => !(isDerived x && !(keep x)))
      removed := removed0 ++ processFiles.filter (fun x => !(keep x))
      soxCalls := if skipProcessing then 0 else 1 }
  else
    { ready := []
      dirFiles := dir2
      removed := removed0
      soxCalls := 1 }

/-- extract.py lines 169-226: split, then reject the whole batch when the
validated count differs from expected_count, deleting every surviving
candidate from disk and returning the empty list. -/
def split_examples_with_count (env : SplitEnv) (inputAudioPath : String)
    (dir0 : List String) (minVoicingDuration : Dur) (expectedCount : Nat)
    (skipProcessing cleanState : Bool) : SplitOut :=
  let r := split_examples env inputAudioPath dir0 minVoicingDuration
    skipProcessing cleanState
  if r.ready.length = expectedCount then r
  else
    { ready := []
      dirFiles := r.dirFiles.filter (fun x => !(decide (x ∈ r.ready)))
      removed := r.removed ++ r.ready
      soxCalls := r.soxCalls }

/-- Exceptions a model call can raise (propagate to the caller). -/
inductive PyErr where
  | typeError
  | notImplementedError
  | valueError
  | otherError
deriving DecidableEq, Repr

instance {ε α : Type} [DecidableEq ε] [DecidableEq α] :
    DecidableEq (Except ε α) := fun a b =>
  match a, b with
  | .ok x, .ok y =>
    if h : x = y then .isTrue (by simp [h]) else .isFalse (by simp [h])
  | .error x, .error y =>
    if h : x = y then .isTrue (by simp [h]) else .isFalse (by simp [h])
  | .ok _, .error _ => .isFalse (by simp)
  | .error _, .ok _ => .isFalse (by simp)

/-- Oracle bundle for standardize_one.
* dur: result of claudio.fileio.AudioFile on a path — some duration, or none
  when opening fails (the AssertionError / wave.Error caught at extract.py
  lines 273-281).
* trimOk: the boolean returned by claudio.sox.trim. -/
structure StdEnv where
  dur : String → Option Dur
  trimOk : Bool

/-- Result of one standardize_one call.
* ret: the returned value, or the exception raised.
* written: a pair (path, duration) when a successful trim wrote a file; the
  trim to the range from 0 to final_duration of a clip of duration d yields a
  clip of duration min d final_duration.
* trimCalls: how many times claudio.sox.trim was invoked. -/
structure StdOut where
  ret : Except PyErr (Option String)
  written : Option (String × Dur)
  trimCalls : Nat
deriving DecidableEq, Repr

/-- extract.py lines 229-324. The None branches of first_onset_start and
center_of_mass_alignment raise NotImplementedError (lines 287, 309); the
comparison final_duration < aobj.duration at line 311 raises TypeError under
Python 3 when final_duration is None. -/
def standardize_one (env : StdEnv) (inputAudioPath : String)
    (outputDir : Option String) (firstOnsetStart : Option Dur)
    (centerOfMassAlignment : Bool) (finalDuration : Option Dur) : StdOut :=
  match env.dur inputAudioPath with
  | none => { ret := .ok none, written := none, trimCalls := 0 }
  | some d =>
    if d = 0 then { ret := .ok none, written := none, trimCalls := 0 }
    else if firstOnsetStart.isSome then
      { ret := .error .notImplementedError, written := none, trimCalls := 0 }
    else if centerOfMassAlignment then
      { ret := .error .notImplementedError, written := none, trimCalls := 0 }
    else
      match finalDuration with
      | none => { ret := .error .typeError, written := none, trimCalls := 0 }
      | some fd =>
        if fd < d then
          -- output_fname is assigned before the trim is attempted
          let outputFname : Option String :=
            match outputDir with
            | some od =>
              if od ≠ "" then some (joinPath od (basenameOf inputAudioPath))
              else none
            | none => none
          let target := outputFname.getD inputAudioPath
          if env.trimOk then
            { ret := .ok (some target)
              written := some (target, min d fd)
              trimCalls := 1 }
          else
            -- trim failure is logged; the final return still yields
            -- output_fname when it was set (line 324)
            { ret := .ok (some target), written := none, trimCalls := 1 }
        else
          { ret := .ok (some inputAudioPath), written := none, trimCalls := 0 }

/-- Duration of the file at a path after a standardize_one call: the trimmed
duration when the call wrote that path, the pre-call duration otherwise. -/
def durAfter (env : StdEnv) (out : StdOut) (p : String) : Option Dur :=
  match out.written with
  | some (q, d) => if p = q then some d else env.dur p
  | none => env.dur p

/-- The value standardize_one hands back to row_to_notes. With the arguments
row_to_notes uses (no onset alignment, no center-of-mass, a numeric
final_duration) no exception can be raised, so the error branch is
unreachable there. -/
def stdRet (out : StdOut) : Option String :=
  match out.ret with
  | .ok v => v
  | .error _ => none

/-- One derived single-note clip (a row of the notes dataframe). -/
structure NoteRecord where
  audio_file : String
  dataset : String
  instrument : String
  dynamic : String
deriving DecidableEq, Repr

/-- One hierarchical index entry: (parent id, child id, record). -/
abbrev Entry := String × String × NoteRecord

abbrev NotesIndex := List Entry

/-- One catalog row (a row of the datasets dataframe). -/
structure SourceRow where
  audio_file : String
  dataset : String
  instrument : String
  dynamic : String
deriving DecidableEq, Repr

/-- Oracle bundle for one row_to_notes call.
* split, std: the collaborator behaviour seen by this row's split and
  standardize calls.
* numNotes — Modelled from the spec: wcqtlib.data.parse.
  get_num_notes_from_uiowa_filename is not in src/; per the spec it decodes
  "a note count derivable from certain filenames", so it is an oracle from
  the audio path to an optional count (Python truthiness: a count of 0 is
  treated like None at the dispatch).
* generateId — Modelled from the spec: wcqtlib.data.parse.generate_id is not
  in src/; per the spec it is "a deterministic id-generation function
  (dataset, filename) -> id", so it is an oracle of those two arguments.
* dirFiles: listing of this row's output directory when the row runs. -/
structure RowEnv where
  split : SplitEnv
  std : StdEnv
  numNotes : String → Option Nat
  generateId : String → String → String
  dirFiles : List String

/-- Result of one row_to_notes call, with collaborator call counts. -/
structure RowOut where
  entries : NotesIndex
  soxCalls : Nat
  stdCalls : Nat
deriving DecidableEq, Repr

/-- The output directory of a row: os.path.join(extract_path, dataset). -/
def outDirOf (extractPath : String) (row : SourceRow) : String :=
  joinPath extractPath row.dataset

/-- Steps 1-3 of the per-row dispatch (extract.py lines 367-389): the list of
candidate clip paths, together with the number of segmentation calls made. -/
def row_result_notes (env : RowEnv) (extractPath : String) (row : SourceRow)
    (skipProcessing : Bool) (minVoicingDuration : Dur) :
    List String × Nat :=
  let outputDir := outDirOf extractPath row
  let noteCount := env.numNotes row.audio_file
  -- Python truthiness of note_count: not None and not 0
  let countTruthy : Bool := match noteCount with
    | some n => decide (n ≠ 0)
    | none => false
  if row.dataset = "uiowa" ∧ countTruthy then
    let s := split_examples_with_count env.split row.audio_file env.dirFiles
      minVoicingDuration (noteCount.getD 0) skipProcessing true
    (s.ready.map (joinPath outputDir), s.soxCalls)
  else if row.dataset = "rwc" ∨ row.dataset = "uiowa" then
    let s := split_examples env.split row.audio_file env.dirFiles
      minVoicingDuration skipProcessing true
    (s.ready.map (joinPath outputDir), s.soxCalls)
  else ([row.audio_file], 0)

/-- extract.py lines 327-411: dispatch, then standardize-and-record loop.
The standardizer runs only when skip_processing is false; a clip whose
standardization returns none is dropped; the child id is generated from the
pre-standardization note path. -/
def row_to_notes (env : RowEnv) (extractPath : String) (index : String)
    (row : SourceRow) (skipProcessing : Bool)
    (minVoicingDuration maxDuration : Dur) : RowOut :=
  let outputDir := outDirOf extractPath row
  let rn := row_result_notes env extractPath row skipProcessing
    minVoicingDuration
  let entries := rn.1.filterMap (fun noteFilePath =>
    let audioFilePath : Option String :=
      if skipProcessing then some noteFilePath
      else stdRet (standardize_one env.std noteFilePath (some outputDir)
        none false (some maxDuration))
    audioFilePath.map (fun p =>
      (index, env.generateId row.dataset noteFilePath,
        { audio_file := p, dataset := row.dataset,
          instrument := row.instrument, dynamic := row.dynamic })))
  { entries := entries
    soxCalls := rn.2
    stdCalls := if skipProcessing then 0 else rn.1.length }

/-- extract.py lines 505-509: a catalog id is covered by the notes index
when it has at least one entry there and every audio_file of its entries
exists on disk (the all over notes_df.loc of that id). -/
def coveredBy (notesDf : NotesIndex) (fileExists : String → Bool)
    (idx : String) : Bool :=
  notesDf.any (fun e => e.1 = idx) &&
    (notesDf.filter (fun e => e.1 = idx)).all
      (fun e => fileExists e.2.2.audio_file)

/-- extract.py lines 501-512: the rows actually dispatched to the pool. When
skip_existing is true and the existing index is non-empty, rows covered by
the existing index are dropped (the continue); otherwise every row is kept,
in catalog order. -/
def work_list (fileExists : String → Bool)
    (datasetsDf : List (String × SourceRow)) (notesDf : NotesIndex)
    (skipExisting : Bool) : List (String × SourceRow) :=
  if skipExisting && !notesDf.isEmpty then
    datasetsDf.filter (fun p => !(coveredBy notesDf fileExists p.1))
  else datasetsDf

/-- Result of one datasets_to_notes call, with the total number of
segmentation-primitive invocations across all processed rows. -/
structure PipelineOut where
  index : NotesIndex
  soxCalls : Nat
deriving DecidableEq, Repr

/-- extract.py lines 414-526: filter the catalog down to the work-list, run
row_to_notes on every remaining row (the parallel pool; rows interact with
the collaborators through per-row oracle bundles, deterministic in the row
id), and concatenate the whole existing index with all new entries
(pandas.concat at lines 524-526). -/
def datasets_to_notes (rowEnvOf : String → RowEnv)
    (fileExists : String → Bool) (datasetsDf : List (String × SourceRow))
    (notesDf : NotesIndex) (extractPath : String)
    (minVoicingDuration maxDuration : Dur)
    (skipProcessing skipExisting : Bool) : PipelineOut :=
  let wl := work_list fileExists datasetsDf notesDf skipExisting
  let results := wl.map (fun p =>
    row_to_notes (rowEnvOf p.1) extractPath p.1 p.2 skipProcessing
      minVoicingDuration maxDuration)
  { index := notesDf ++ (results.map (fun r => r.entries)).flatten
    soxCalls := (results.map (fun r => r.soxCalls)).sum }

/-- extract.py lines 548-551: keep only rows whose instrument is among the
selected ones; an empty selection keeps everything. -/
def filter_datasets_on_selected_instruments
    (datasetsDf : List (String × SourceRow))
    (selectedInstruments : List String) : List (String × SourceRow) :=
  if selectedInstruments.isEmpty then datasetsDf
  else datasetsDf.filter
    (fun p => selectedInstruments.contains p.2.instrument)

/-- Oracle bundle for extract_notes: outcomes of the persistence and parsing
collaborators, plus everything datasets_to_notes needs.
* datasetsLoad: pandas.read_json of the datasets dataframe (line 620).
* notesPathExists / notesLoad: existence and load of the prior notes
  artifact (lines 623-624).
* saveResult: notes_df.to_pickle (line 652); an exception propagates.
* reload: the pandas.read_pickle verification (line 656); only a ValueError
  is caught.
* allnames — Modelled from the spec: wcqtlib.data.parse.InstrumentClassMap
  is not in src/; its allnames is the instrument selection list.
* normalize — Modelled from the spec: wcqtlib.data.parse.
  normalize_instrument_names is not in src/; per the spec, instrument-name
  normalization is an external catalog collaborator, so it is an oracle on
  catalogs. -/
structure ExtractEnv where
  datasetsLoad : Except PyErr (List (String × SourceRow))
  notesPathExists : Bool
  notesLoad : Except PyErr NotesIndex
  saveResult : Except PyErr Unit
  reload : Except PyErr NotesIndex
  allnames : List String
  normalize : List (String × SourceRow) → List (String × SourceRow)
  rowEnvOf : String → RowEnv
  fileExists : String → Bool
  extractPath : String
  minVoicingDuration : Dur
  maxDuration : Dur

/-- extract.py lines 580-666: load inputs, filter and normalize, run
datasets_to_notes, persist the result, and report success by attempting to
reload the artifact. Only a ValueError from the reload is caught (and turned
into the explicit False return after the debugger hook); every other
exception along the way propagates. -/
def extract_notes (env : ExtractEnv)
    (skipProcessing skipExisting : Bool) : Except PyErr Bool :=
  match env.datasetsLoad with
  | .error e => .error e
  | .ok datasetsDf =>
    match (if skipExisting && env.notesPathExists then env.notesLoad
           else .ok []) with
    | .error e => .error e
    | .ok notesDf =>
      let filtered := env.normalize
        (filter_datasets_on_selected_instruments datasetsDf env.allnames)
      let _run := datasets_to_notes env.rowEnvOf env.fileExists filtered
        notesDf env.extractPath env.minVoicingDuration env.maxDuration
        skipProcessing skipExisting
      match env.saveResult with
      | .error e => .error e
      | .ok _ =>
        match env.reload with
        | .ok _ => .ok true
        | .error .valueError => .ok false
        | .error e => .error e

/-! ## Claim theorems -/

/-- Where standardize_one writes (and reports) its trimmed result: the same
basename under output_dir in non-destructive mode, the input path itself in
in-place mode (output_dir absent or empty, hence falsy). -/
def stdTarget (input : String) (od : Option String) : String :=
  match od with
  | some odv => if odv ≠ "" then joinPath odv (basenameOf input) else input
  | none => input

/-- C10: calling standardize_one with its default final_duration=None on a
clip that opens successfully and has nonzero duration raises the
None-versus-float TypeError of the comparison at extract.py line 311, rather
than acting as a no-op or returning None. -/
theorem claim_C10 (env : StdEnv) (input : String) (od : Option String)
    (d : Dur) (hopen : env.dur input = some d) (hnz : d ≠ 0) :
    (standardize_one env input od none false none).ret =
      .error .typeError := by
  unfold standardize_one
  rw [hopen]
  simp [hnz]

def c10Env : StdEnv := { dur := fun _ => some 1, trimOk := true }

theorem claim_C10_witness :
    (standardize_one c10Env "a.wav" none none false none).ret =
      .error .typeError :=
  claim_C10 c10Env "a.wav" none 1 rfl (by norm_num)


def c6Env : StdEnv := { dur := fun _ => some 3, trimOk := false }

/-- C6 counterexample: a clip of duration 3 with final_duration 2 whose trim
fails (claudio.sox.trim returns False, the logged branch at extract.py lines
319-322). standardize_one returns the input path, whose clip still has
duration 3, exceeding final_duration — so "if its duration exceeds
final_duration the returned path's clip has duration at most final_duration"
is false as stated. -/
theorem claim_C6_counterexample :
    c6Env.dur "a.wav" = some 3 ∧
    (standardize_one c6Env "a.wav" none none false (some 2)).ret =
      .ok (some "a.wav") ∧
    durAfter c6Env
      (standardize_one c6Env "a.wav" none none false (some 2)) "a.wav" =
        some 3 ∧
    ¬((3 : Dur) ≤ 2) := by decide

/-- C6 amended: for a clip that opens with nonzero duration d, if d is at
most final_duration the call returns the input path unchanged with no write
and no trim; if d exceeds final_duration and the trim succeeds, the returned
path's clip has duration min d final_duration, which is at most
final_duration. (The claim as stated omits the trim-success condition; a
failed trim keeps the untrimmed clip.) -/
theorem claim_C6 (env : StdEnv) (input : String) (od : Option String)
    (d fd : Dur) (hopen : env.dur input = some d) (hnz : d ≠ 0) :
    (d ≤ fd →
      (standardize_one env input od none false (some fd)).ret =
        .ok (some input) ∧
      (standardize_one env input od none false (some fd)).written = none ∧
      (standardize_one env input od none false (some fd)).trimCalls = 0) ∧
    (fd < d → env.trimOk = true →
      ∃ p, (standardize_one env input od none false (some fd)).ret =
          .ok (some p) ∧
        durAfter env (standardize_one env input od none false (some fd)) p =
          some (min d fd) ∧
        min d fd ≤ fd) := by
  unfold standardize_one
  rw [hopen]
  simp only [hnz, if_false, Option.isSome_none, Bool.false_eq_true,
    if_neg, ite_false]
  constructor
  · intro hle
    rw [if_neg (not_lt.mpr hle)]
    simp
  · intro hlt htrim
    rw [if_pos hlt, htrim]
    rcases od with _ | odv
    · exact ⟨input, by simp, by simp [durAfter], min_le_right d fd⟩
    · by_cases h : odv = ""
      · exact ⟨input, by simp [h], by simp [h, durAfter],
          min_le_right d fd⟩
      · exact ⟨joinPath odv (basenameOf input), by simp [h],
          by simp [h, durAfter], min_le_right d fd⟩

def c6EnvB : StdEnv := { dur := fun _ => some 3, trimOk := true }

theorem claim_C6_witness :
    (standardize_one c6EnvB "a.wav" none none false (some 4)).ret =
      .ok (some "a.wav") ∧
    (∃ p, (standardize_one c6EnvB "a.wav" none none false (some 2)).ret =
        .ok (some p) ∧
      durAfter c6EnvB
        (standardize_one c6EnvB "a.wav" none none false (some 2)) p =
          some (min 3 2) ∧
      min (3 : Dur) 2 ≤ 2) :=
  ⟨((claim_C6 c6EnvB "a.wav" none 3 4 rfl (by norm_num)).1 (by norm_num)).1,
   (claim_C6 c6EnvB "a.wav" none 3 2 rfl (by norm_num)).2 (by norm_num) rfl⟩

def c7Env : StdEnv := { dur := fun _ => some 3, trimOk := false }

/-- C7 counterexample: in non-destructive mode (output_dir given) with a
failing trim, standardize_one does not return the original input path: the
output filename under output_dir was already assigned before the trim was
attempted (extract.py lines 312-315), and the final return at line 324
yields it. -/
theorem claim_C7_counterexample :
    (standardize_one c7Env "in/a.wav" (some "out") none false
      (some 2)).ret = .ok (some "out/a.wav") ∧
    "out/a.wav" ≠ "in/a.wav" := by decide

/-- C7 amended: when the trim fails for a clip whose duration exceeds
final_duration, the call does not raise and no trimmed file is produced; it
returns the original input path in in-place mode, but in non-destructive
mode it returns the would-be output path under output_dir instead. -/
theorem claim_C7 (env : StdEnv) (input : String) (od : Option String)
    (d fd : Dur) (hopen : env.dur input = some d) (hnz : d ≠ 0)
    (hfail : env.trimOk = false) (hlt : fd < d) :
    (standardize_one env input od none false (some fd)).ret =
      .ok (some (stdTarget input od)) ∧
    (standardize_one env input od none false (some fd)).written = none ∧
    (standardize_one env input od none false (some fd)).trimCalls = 1 ∧
    (od = none → stdTarget input od = input) := by
  unfold standardize_one
  rw [hopen]
  simp only [hnz, if_false, Option.isSome_none, Bool.false_eq_true,
    if_neg, ite_false]
  rw [if_pos hlt, hfail]
  rcases od with _ | odv
  · simp [stdTarget]
  · by_cases h : odv = ""
    · simp [stdTarget, h]
    · simp [stdTarget, h]

theorem claim_C7_witness :
    (standardize_one c7Env "in/a.wav" none none false (some 2)).ret =
      .ok (some "in/a.wav") ∧
    (standardize_one c7Env "in/a.wav" (some "out") none false
      (some 2)).written = none := by
  refine ⟨?_, ?_⟩
  · have h := claim_C7 c7Env "in/a.wav" none 3 2 rfl (by norm_num) rfl
      (by norm_num)
    rw [h.1, (h.2.2.2 rfl)]
  · exact (claim_C7 c7Env "in/a.wav" (some "out") 3 2 rfl (by norm_num) rfl
      (by norm_num)).2.1

/-- C1: on a count mismatch, split_examples_with_count deletes every
surviving candidate of this input from disk and returns the empty list (so
a row whose candidate list is empty contributes zero note records); on a
match it returns exactly expected_count paths, untouched. -/
theorem claim_C1 (env : SplitEnv) (input : String) (dir0 : List String)
    (minv : Dur) (n : Nat) (skip clean : Bool) :
    ((split_examples env input dir0 minv skip clean).ready.length ≠ n →
      (split_examples_with_count env input dir0 minv n skip clean).ready =
        [] ∧
      ∀ f ∈ (split_examples env input dir0 minv skip clean).ready,
        f ∉ (split_examples_with_count env input dir0 minv n skip
          clean).dirFiles) ∧
    ((split_examples env input dir0 minv skip clean).ready.length = n →
      split_examples_with_count env input dir0 minv n skip clean =
        split_examples env input dir0 minv skip clean ∧
      (split_examples_with_count env input dir0 minv n skip
        clean).ready.length = n) ∧
    (∀ (renv : RowEnv) (extractPath idx : String) (row : SourceRow)
      (maxd : Dur) (skipP : Bool),
      (row_result_notes renv extractPath row skipP minv).1 = [] →
      (row_to_notes renv extractPath idx row skipP minv maxd).entries =
        []) := by
  refine ⟨?_, ?_, ?_⟩
  · intro hne
    simp only [split_examples_with_count]
    rw [if_neg hne]
    refine ⟨rfl, fun f hf => ?_⟩
    simp only [List.mem_filter, decide_eq_true_eq, Bool.not_eq_true',
      decide_eq_false_iff_not]
    rintro ⟨-, hcon⟩
    exact hcon hf
  · intro he
    simp only [split_examples_with_count]
    rw [if_pos he]
    exact ⟨rfl, he⟩
  · intro renv ep idx row maxd skipP h
    simp [row_to_notes, h]

def c1Env : SplitEnv :=
  { soxOk := true, soxOutputs := ["x001.wav"], dur := fun _ => some 1 }

theorem claim_C1_witness :
    (split_examples c1Env "d/x.wav" [] 1 false true).ready.length ≠ 2 ∧
    (split_examples_with_count c1Env "d/x.wav" [] 1 2 false true).ready =
      [] ∧
    "x001.wav" ∉
      (split_examples_with_count c1Env "d/x.wav" [] 1 2 false
        true).dirFiles := by
  have h := (claim_C1 c1Env "d/x.wav" [] 1 2 false true).1 (by decide)
  exact ⟨by decide, h.1, h.2 "x001.wav" (by decide)⟩

def c5RowEnv : RowEnv :=
  { split := { soxOk := false, soxOutputs := [], dur := fun _ => none }
    std := { dur := fun _ => none, trimOk := true }
    numNotes := fun _ => none
    generateId := fun d f => d ++ ":" ++ f
    dirFiles := [] }

def c5Row : SourceRow :=
  { audio_file := "p/a.wav", dataset := "philharmonia",
    instrument := "oboe", dynamic := "mf" }

/-- C5 counterexample: with skip_processing true, row_to_notes makes zero
standardizer calls and keeps the surviving clip as-is, even under a
standardizer oracle that returns None on every clip — so the standardizer
does not run "regardless of the skip_processing flag", and clips for which
it would return None are not dropped. -/
theorem claim_C5_counterexample :
    (row_to_notes c5RowEnv "e" "p1" c5Row true 1 2).stdCalls = 0 ∧
    (row_to_notes c5RowEnv "e" "p1" c5Row true 1 2).entries =
      [("p1", "philharmonia:p/a.wav",
        { audio_file := "p/a.wav", dataset := "philharmonia",
          instrument := "oboe", dynamic := "mf" })] ∧
    stdRet (standardize_one c5RowEnv.std "p/a.wav"
      (some (outDirOf "e" c5Row)) none false (some 2)) = none := by decide

/-- C5 amended: the standardizer runs on every surviving candidate clip only
when skip_processing is false, and then exactly the clips for which it
returns None are dropped: every kept record's audio_file is a standardizer
output, and every clip whose standardization returns non-null contributes
its entry to the row's results; when skip_processing is true the
standardizer is never invoked and every surviving clip passes through
unchanged. -/
theorem claim_C5 (env : RowEnv) (extractPath idx : String)
    (row : SourceRow) (minv maxd : Dur) (skipP : Bool) :
    (skipP = false →
      (row_to_notes env extractPath idx row skipP minv maxd).stdCalls =
        (row_result_notes env extractPath row skipP minv).1.length ∧
      (∀ e ∈ (row_to_notes env extractPath idx row skipP minv maxd).entries,
        ∃ nfp ∈ (row_result_notes env extractPath row skipP minv).1,
          stdRet (standardize_one env.std nfp
            (some (outDirOf extractPath row)) none false (some maxd)) =
            some e.2.2.audio_file) ∧
      ∀ nfp ∈ (row_result_notes env extractPath row skipP minv).1, ∀ p,
        stdRet (standardize_one env.std nfp
          (some (outDirOf extractPath row)) none false (some maxd)) =
          some p →
        (idx, env.generateId row.dataset nfp,
          ({ audio_file := p, dataset := row.dataset,
             instrument := row.instrument,
             dynamic := row.dynamic } : NoteRecord)) ∈
          (row_to_notes env extractPath idx row skipP minv maxd).entries) ∧
    (skipP = true →
      (row_to_notes env extractPath idx row skipP minv maxd).stdCalls = 0 ∧
      (row_to_notes env extractPath idx row skipP minv
        maxd).entries.map (fun e => e.2.2.audio_file) =
        (row_result_notes env extractPath row skipP minv).1) := by
  cases skipP with
  | false =>
    constructor
    · intro _
      refine ⟨by simp [row_to_notes], ?_, ?_⟩
      · intro e he
        simp only [row_to_notes, Bool.false_eq_true, if_false,
          List.mem_filterMap] at he
        obtain ⟨nfp, hmem, hf⟩ := he
        refine ⟨nfp, hmem, ?_⟩
        obtain ⟨p, hp, hgp⟩ := Option.map_eq_some'.mp hf
        rw [← hgp]
        exact hp
      · intro nfp hmem p hstd
        simp only [row_to_notes, Bool.false_eq_true, if_false]
        exact List.mem_filterMap.mpr ⟨nfp, hmem, by rw [hstd]; rfl⟩
    · intro h
      exact Bool.noConfusion h
  | true =>
    constructor
    · intro h
      exact Bool.noConfusion h
    · intro _
      constructor
      · simp [row_to_notes]
      · simp only [row_to_notes, if_true, Option.map_some']
        generalize (row_result_notes env extractPath row true minv).1 = l
        induction l with
        | nil => simp
        | cons a t ih => simp [ih]

def c5RowEnvB : RowEnv :=
  { split := { soxOk := false, soxOutputs := [], dur := fun _ => none }
    std := { dur := fun _ => some 1, trimOk := true }
    numNotes := fun _ => none
    generateId := fun d f => d ++ ":" ++ f
    dirFiles := [] }

theorem claim_C5_witness :
    ((row_to_notes c5RowEnv "e" "p1" c5Row true 1 2).stdCalls = 0 ∧
      (row_to_notes c5RowEnv "e" "p1" c5Row true 1 2).entries.map
        (fun e => e.2.2.audio_file) =
        (row_result_notes c5RowEnv "e" c5Row true 1).1) ∧
    (row_to_notes c5RowEnv "e" "p1" c5Row false 1 2).stdCalls =
      (row_result_notes c5RowEnv "e" c5Row false 1).1.length ∧
    ("p1", "philharmonia:p/a.wav",
      ({ audio_file := "p/a.wav", dataset := "philharmonia",
         instrument := "oboe", dynamic := "mf" } : NoteRecord)) ∈
      (row_to_notes c5RowEnvB "e" "p1" c5Row false 1 2).entries :=
  ⟨(claim_C5 c5RowEnv "e" "p1" c5Row 1 2 true).2 rfl,
   ((claim_C5 c5RowEnv "e" "p1" c5Row 1 2 false).1 rfl).1,
   ((claim_C5 c5RowEnvB "e" "p1" c5Row 1 2 false).1 rfl).2.2
     "p/a.wav" (by decide) "p/a.wav" (by decide)⟩

def c8Env : SplitEnv :=
  { soxOk := false, soxOutputs := [], dur := fun _ => none }

/-- C8 counterexample: split_examples matches derived files by substring
containment of the filebase (Python: filebase in x, extract.py lines 126 and
145), not by stem prefix. A call for abc.wav with clean state deletes
xabc001.wav — a derived file of the distinct recording xabc.wav, whose stem
xabc (not abc) is the one xabc001.wav actually carries. So files of another
recording's stem can be deleted. -/
theorem claim_C8_counterexample :
    (split_examples c8Env "abc.wav" ["xabc001.wav"] 1 false true).removed =
      ["xabc001.wav"] ∧
    filebase "abc.wav" = "abc" ∧
    ¬("abc".toList <+: "xabc001.wav".toList) ∧
    filebase "xabc.wav" = "xabc" ∧
    ("xabc".toList <+: "xabc001.wav".toList) := by decide

/-- C8 amended: every file split_examples deletes, and every path it
returns, lies in the output directory and has a name that contains the
input's filebase as a substring and differs from the input's basename; a
directory file whose name does not contain the filebase is never deleted.
(The true scoping is substring containment of the filebase, not "shares the
input's stem": another recording whose derived names contain this filebase
as a substring is not protected.) -/
theorem claim_C8 (env : SplitEnv) (input : String) (dir0 : List String)
    (minv : Dur) (skip clean : Bool) :
    (∀ f ∈ (split_examples env input dir0 minv skip clean).removed,
      (f ∈ dir0 ∨ f ∈ env.soxOutputs) ∧
      strContains (filebase (basenameOf input)) f = true ∧
      f ≠ basenameOf input) ∧
    (∀ f ∈ (split_examples env input dir0 minv skip clean).ready,
      (f ∈ dir0 ∨ f ∈ env.soxOutputs) ∧
      strContains (filebase (basenameOf input)) f = true ∧
      f ≠ basenameOf input) ∧
    (∀ f ∈ dir0, strContains (filebase (basenameOf input)) f = false →
      f ∈ (split_examples env input dir0 minv skip clean).dirFiles) := by
  cases skip <;> cases clean <;> cases hs : env.soxOk <;>
    simp only [split_examples, hs] <;>
    refine ⟨fun f hf => ?_, fun f hf => ?_, fun f hf hnc => ?_⟩ <;>
    simp_all <;> tauto

def c8EnvB : SplitEnv :=
  { soxOk := true, soxOutputs := ["x001.wav"], dur := fun _ => some 1 }

theorem claim_C8_witness :
    (("x-old.wav" ∈ (["x-old.wav", "other.wav"] : List String) ∨
        "x-old.wav" ∈ c8EnvB.soxOutputs) ∧
      strContains (filebase (basenameOf "d/x.wav")) "x-old.wav" = true ∧
      "x-old.wav" ≠ basenameOf "d/x.wav") ∧
    (("x001.wav" ∈ (["x-old.wav", "other.wav"] : List String) ∨
        "x001.wav" ∈ c8EnvB.soxOutputs) ∧
      strContains (filebase (basenameOf "d/x.wav")) "x001.wav" = true ∧
      "x001.wav" ≠ basenameOf "d/x.wav") ∧
    "other.wav" ∈ (split_examples c8EnvB "d/x.wav"
      ["x-old.wav", "other.wav"] 1 false true).dirFiles := by
  have h := claim_C8 c8EnvB "d/x.wav" ["x-old.wav", "other.wav"] 1
    false true
  exact ⟨h.1 "x-old.wav" (by decide), h.2.1 "x001.wav" (by decide),
    h.2.2 "other.wav" (by decide) (by decide)⟩

/-- Every entry produced by row_to_notes carries the row's id as parent. -/
theorem row_to_notes_parent (env : RowEnv) (ep idx : String)
    (row : SourceRow) (skipP : Bool) (minv maxd : Dur) :
    ∀ e ∈ (row_to_notes env ep idx row skipP minv maxd).entries,
      e.1 = idx := by
  intro e he
  simp only [row_to_notes, List.mem_filterMap] at he
  obtain ⟨nfp, _, hf⟩ := he
  obtain ⟨p, _, hgp⟩ := Option.map_eq_some'.mp hf
  rw [← hgp]

/-- Unfolding of the skip test: covered means at least one entry for this
id, all of whose files exist. -/
theorem coveredBy_iff (notesDf : NotesIndex) (fileExists : String → Bool)
    (idx : String) :
    coveredBy notesDf fileExists idx = true ↔
      (∃ e ∈ notesDf, e.1 = idx) ∧
      ∀ e ∈ notesDf, e.1 = idx → fileExists e.2.2.audio_file = true := by
  simp only [coveredBy, List.any_eq_true, List.all_eq_true,
    List.mem_filter, Bool.and_eq_true, decide_eq_true_eq]
  simp

/-- C4: with skip_existing true and a non-empty existing index, a catalog
row is excluded from the work-list iff its id has at least one entry in the
existing index and every audio_file of that parent's entries exists on disk;
and every pre-existing entry (in particular those of a skipped parent)
passes through into the output index unchanged. -/
theorem claim_C4 (fileExists : String → Bool)
    (datasetsDf : List (String × SourceRow)) (notesDf : NotesIndex)
    (hne : notesDf ≠ []) (p : String × SourceRow) (hp : p ∈ datasetsDf) :
    (p ∉ work_list fileExists datasetsDf notesDf true ↔
      (∃ e ∈ notesDf, e.1 = p.1) ∧
      ∀ e ∈ notesDf, e.1 = p.1 → fileExists e.2.2.audio_file = true) ∧
    (∀ (rowEnvOf : String → RowEnv) (extractPath : String)
      (minv maxd : Dur) (skipP skipE : Bool), ∀ e ∈ notesDf,
      e ∈ (datasets_to_notes rowEnvOf fileExists datasetsDf notesDf
        extractPath minv maxd skipP skipE).index) := by
  constructor
  · have hcond : (true && !notesDf.isEmpty) = true := by
      simp [List.isEmpty_iff, hne]
    rw [work_list, if_pos hcond]
    constructor
    · intro hnot
      rw [← coveredBy_iff]
      by_contra hcov
      have hfalse : coveredBy notesDf fileExists p.1 = false :=
        Bool.eq_false_iff.mpr hcov
      exact hnot (List.mem_filter.mpr ⟨hp, by rw [hfalse]; rfl⟩)
    · intro hcov hmem
      rw [← coveredBy_iff] at hcov
      have h2 := (List.mem_filter.mp hmem).2
      rw [hcov] at h2
      simp at h2
  · intro rowEnvOf ep minv maxd sp se e he
    simp only [datasets_to_notes]
    exact List.mem_append_left _ he

def c4Row : SourceRow :=
  { audio_file := "a.wav", dataset := "rwc",
    instrument := "oboe", dynamic := "mf" }

def c4Rec : NoteRecord :=
  { audio_file := "n.wav", dataset := "rwc",
    instrument := "oboe", dynamic := "mf" }

def c4RowEnv : RowEnv :=
  { split := { soxOk := false, soxOutputs := [], dur := fun _ => none }
    std := { dur := fun _ => none, trimOk := true }
    numNotes := fun _ => none
    generateId := fun d f => d ++ ":" ++ f
    dirFiles := [] }

theorem claim_C4_witness :
    ("p1", c4Row) ∉
      work_list (fun _ => true) [("p1", c4Row)] [("p1", "c1", c4Rec)]
        true ∧
    ("p1", "c1", c4Rec) ∈
      (datasets_to_notes (fun _ => c4RowEnv) (fun _ => true)
        [("p1", c4Row)] [("p1", "c1", c4Rec)] "e" 1 2 false true).index := by
  have h := claim_C4 (fun _ => true) [("p1", c4Row)] [("p1", "c1", c4Rec)]
    (by decide) ("p1", c4Row) (by decide)
  exact ⟨h.1.mpr (by decide),
    h.2 (fun _ => c4RowEnv) "e" 1 2 false true ("p1", "c1", c4Rec)
      (by decide)⟩

def c3RowEnv : RowEnv :=
  { split := { soxOk := false, soxOutputs := [], dur := fun _ => none }
    std := { dur := fun _ => none, trimOk := true }
    numNotes := fun _ => none
    generateId := fun d f => d ++ ":" ++ f
    dirFiles := [] }

def c3Row : SourceRow :=
  { audio_file := "p/a.wav", dataset := "philharmonia",
    instrument := "oboe", dynamic := "mf" }

def c3Rec0 : NoteRecord :=
  { audio_file := "gone.wav", dataset := "philharmonia",
    instrument := "oboe", dynamic := "mf" }

def c3RecNew : NoteRecord :=
  { audio_file := "p/a.wav", dataset := "philharmonia",
    instrument := "oboe", dynamic := "mf" }

/-- C3 counterexample: parent p1 has a pre-existing entry whose file is
missing, so p1 is in the work-list and is reprocessed, producing a fresh
entry — yet the output index still contains the stale pre-existing entry
alongside the fresh one, because the merge concatenates the whole existing
index (pandas.concat at extract.py lines 524-526) rather than replacing by
parent. "Never both" is false. -/
theorem claim_C3_counterexample :
    ("p1", c3Row) ∈
      work_list (fun _ => false) [("p1", c3Row)] [("p1", "c0", c3Rec0)]
        true ∧
    (datasets_to_notes (fun _ => c3RowEnv) (fun _ => false)
      [("p1", c3Row)] [("p1", "c0", c3Rec0)] "e" 1 2 true true).index =
      [("p1", "c0", c3Rec0),
       ("p1", "philharmonia:p/a.wav", c3RecNew)] := by decide

/-- C3 amended: the returned index is the whole existing index concatenated
with the newly produced entries of the work-list rows; every new entry's
parent is a work-list row id (parents not in the work-list gain nothing and
keep exactly their pre-existing entries), but a reprocessed parent that had
pre-existing entries keeps them alongside its fresh ones. -/
theorem claim_C3 (rowEnvOf : String → RowEnv) (fileExists : String → Bool)
    (datasetsDf : List (String × SourceRow)) (notesDf : NotesIndex)
    (extractPath : String) (minv maxd : Dur) (skipP skipE : Bool) :
    (datasets_to_notes rowEnvOf fileExists datasetsDf notesDf extractPath
      minv maxd skipP skipE).index =
      notesDf ++
        ((work_list fileExists datasetsDf notesDf skipE).map (fun p =>
          (row_to_notes (rowEnvOf p.1) extractPath p.1 p.2 skipP minv
            maxd).entries)).flatten ∧
    (∀ e ∈ (datasets_to_notes rowEnvOf fileExists datasetsDf notesDf
        extractPath minv maxd skipP skipE).index, e ∉ notesDf →
      e.1 ∈ (work_list fileExists datasetsDf notesDf skipE).map
        Prod.fst) := by
  constructor
  · simp only [datasets_to_notes, List.map_map]
    rfl
  · intro e he hnot
    simp only [datasets_to_notes] at he
    rcases List.mem_append.mp he with h | h
    · exact absurd h hnot
    · obtain ⟨l, hl, hel⟩ := List.mem_flatten.mp h
      obtain ⟨r, hr, rfl⟩ := List.mem_map.mp hl
      obtain ⟨p, hpwl, rfl⟩ := List.mem_map.mp hr
      have hpar := row_to_notes_parent (rowEnvOf p.1) extractPath p.1 p.2
        skipP minv maxd e hel
      exact List.mem_map.mpr ⟨p, hpwl, hpar.symm⟩

theorem claim_C3_witness :
    ("p1", "philharmonia:p/a.wav", c3RecNew).1 ∈
      (work_list (fun _ => false) [("p1", c3Row)] [("p1", "c0", c3Rec0)]
        true).map Prod.fst :=
  (claim_C3 (fun _ => c3RowEnv) (fun _ => false) [("p1", c3Row)]
    [("p1", "c0", c3Rec0)] "e" 1 2 true true).2
    ("p1", "philharmonia:p/a.wav", c3RecNew) (by decide) (by decide)

def c2Row : SourceRow :=
  { audio_file := "u/x.wav", dataset := "uiowa",
    instrument := "horn", dynamic := "mf" }

def c2SplitEnv : SplitEnv :=
  { soxOk := true, soxOutputs := ["x01.wav"], dur := fun _ => some 1 }

def c2RowEnv : RowEnv :=
  { split := c2SplitEnv
    std := { dur := fun _ => some 1, trimOk := true }
    numNotes := fun _ => some 2
    generateId := fun d f => d ++ ":" ++ f
    dirFiles := [] }

/-- C2 counterexample: a UIOWA row whose filename encodes 2 notes but whose
segmentation yields 1 validated clip contributes zero entries, so the first
run's index is empty. The second run, with the same catalog and
skip_existing true, therefore skips nothing (an empty index disables the
work-list filter, and the row has no entries to be covered by) and invokes
the segmentation primitive once, not zero times. -/
theorem claim_C2_counterexample :
    (datasets_to_notes (fun _ => c2RowEnv) (fun _ => true) [("r1", c2Row)]
      [] "e" 1 2 false true).index = [] ∧
    (datasets_to_notes (fun _ => c2RowEnv) (fun _ => true) [("r1", c2Row)]
      (datasets_to_notes (fun _ => c2RowEnv) (fun _ => true)
        [("r1", c2Row)] [] "e" 1 2 false true).index
      "e" 1 2 false true).soxCalls = 1 := by decide

/-- C2 amended: when the starting index is non-empty and every catalog row
is covered by it (at least one entry whose referenced files all exist — in
particular, when every row of the first run contributed at least one entry
and its files are still on disk), the second run returns the index
unchanged and performs zero segmentation calls. -/
theorem claim_C2 (rowEnvOf : String → RowEnv) (fileExists : String → Bool)
    (datasetsDf : List (String × SourceRow)) (index1 : NotesIndex)
    (extractPath : String) (minv maxd : Dur) (skipP : Bool)
    (hne : index1 ≠ [])
    (hcov : ∀ p ∈ datasetsDf, coveredBy index1 fileExists p.1 = true) :
    (datasets_to_notes rowEnvOf fileExists datasetsDf index1 extractPath
      minv maxd skipP true).index = index1 ∧
    (datasets_to_notes rowEnvOf fileExists datasetsDf index1 extractPath
      minv maxd skipP true).soxCalls = 0 := by
  have hwl : work_list fileExists datasetsDf index1 true = [] := by
    rw [work_list, if_pos (by simp [List.isEmpty_iff, hne])]
    rw [List.filter_eq_nil_iff]
    intro p hp
    simp [hcov p hp]
  constructor
  · simp [datasets_to_notes, hwl]
  · simp [datasets_to_notes, hwl]

def c2RecW : NoteRecord :=
  { audio_file := "u/x01.wav", dataset := "uiowa",
    instrument := "horn", dynamic := "mf" }

theorem claim_C2_witness :
    (datasets_to_notes (fun _ => c2RowEnv) (fun _ => true) [("r1", c2Row)]
      [("r1", "c1", c2RecW)] "e" 1 2 false true).index =
      [("r1", "c1", c2RecW)] ∧
    (datasets_to_notes (fun _ => c2RowEnv) (fun _ => true) [("r1", c2Row)]
      [("r1", "c1", c2RecW)] "e" 1 2 false true).soxCalls = 0 :=
  claim_C2 (fun _ => c2RowEnv) (fun _ => true) [("r1", c2Row)]
    [("r1", "c1", c2RecW)] "e" 1 2 false (by decide) (by decide)

def c9RowEnv : RowEnv :=
  { split := { soxOk := false, soxOutputs := [], dur := fun _ => none }
    std := { dur := fun _ => none, trimOk := true }
    numNotes := fun _ => none
    generateId := fun d f => d ++ ":" ++ f
    dirFiles := [] }

def c9EnvBad : ExtractEnv :=
  { datasetsLoad := .error .otherError
    notesPathExists := false
    notesLoad := .ok []
    saveResult := .ok ()
    reload := .ok []
    allnames := []
    normalize := fun x => x
    rowEnvOf := fun _ => c9RowEnv
    fileExists := fun _ => true
    extractPath := "e"
    minVoicingDuration := 1
    maxDuration := 2 }

/-- C9 counterexample: loading the datasets dataframe raises (e.g. the file
is missing or unparsable, extract.py line 620); the whole call fails with
that exception even though the reload oracle would succeed — so extract_notes
does not return true iff the reload succeeds, and conditions other than a
failed reload can make the pipeline fail. -/
theorem claim_C9_counterexample :
    c9EnvBad.reload = .ok [] ∧
    extract_notes c9EnvBad false true = .error .otherError := by decide

/-- C9 amended: when the input loads and the artifact write succeed, the
call returns true iff the reload succeeds; a reload failing with ValueError
is surfaced as an explicit false return; a reload failing with any other
exception — like any failure of the earlier loads or of the write itself —
propagates as an exception rather than a false return. -/
theorem claim_C9 (env : ExtractEnv) (sp se : Bool)
    (ds : List (String × SourceRow)) (nd : NotesIndex)
    (h1 : env.datasetsLoad = .ok ds)
    (h2 : (if se && env.notesPathExists then env.notesLoad
      else .ok []) = .ok nd)
    (h3 : env.saveResult = .ok ()) :
    (extract_notes env sp se = .ok true ↔ ∃ df, env.reload = .ok df) ∧
    (env.reload = .error .valueError → extract_notes env sp se = .ok false) ∧
    (∀ er, er ≠ PyErr.valueError → env.reload = .error er →
      extract_notes env sp se = .error er) := by
  have hmain : extract_notes env sp se =
      (match env.reload with
        | .ok _ => Except.ok true
        | .error .valueError => Except.ok false
        | .error e => Except.error e) := by
    unfold extract_notes
    rw [h1, h2, h3]
  refine ⟨?_, ?_, ?_⟩
  · rw [hmain]
    cases hr : env.reload with
    | ok df => simp
    | error er => cases er <;> simp
  · intro hv
    rw [hmain, hv]
  · intro er hne hr
    rw [hmain, hr]
    cases er with
    | typeError => rfl
    | notImplementedError => rfl
    | valueError => exact absurd rfl hne
    | otherError => rfl

def c9EnvOk : ExtractEnv :=
  { datasetsLoad := .ok []
    notesPathExists := false
    notesLoad := .ok []
    saveResult := .ok ()
    reload := .ok []
    allnames := []
    normalize := fun x => x
    rowEnvOf := fun _ => c9RowEnv
    fileExists := fun _ => true
    extractPath := "e"
    minVoicingDuration := 1
    maxDuration := 2 }

theorem claim_C9_witness :
    extract_notes c9EnvOk false true = .ok true :=
  (claim_C9 c9EnvOk false true [] [] rfl rfl rfl).1.mpr ⟨[], rfl⟩

end Wcqt
